import Mathlib

/-!
Shallow embedding of data_transformation.py from the CloserThanYouThink
repository, together with theorems settling the specification claims about
the interval splitter (split_call_by_hour) and the grid aggregator
(transform_for_time_heatmap).

Timestamps are modelled as integer seconds since the epoch
1970-01-01 00:00:00 (that day was a Thursday, so the pandas day-of-week of
epoch-day number n is (n + 3) mod 7, with Monday = 0 and Sunday = 6).
Minutes are modelled as rationals: the Python code computes
total_seconds() / 60 in floating point; here the same quotient is exact,
which only makes the comparisons sharper.
-/

/-- One bucket contribution: an element of the list built by
split_call_by_hour, i.e. the dict with keys time_bucket, minutes and
time_zone (data_transformation.py lines 21-25). -/
structure Contribution where
  time_bucket : ℤ
  minutes : ℚ
  time_zone : String
deriving DecidableEq

/-- Model of pd.date_range(start=start_time, end=end_time, freq=h)
(data_transformation.py line 6): the timestamps start_time + 3600 * i for
i = 0, 1, ... as long as they do not exceed end_time.  The Hour frequency
is a pandas Tick offset, for which every timestamp counts as on-offset, so
the ticks are anchored at start_time itself: pandas does not roll the
start forward or down to an hour boundary.  When end_time < start_time the
index is empty. -/
def date_range (start_time end_time : ℤ) : List ℤ :=
  if start_time ≤ end_time then
    (List.range ((end_time - start_time).toNat / 3600 + 1)).map
      (fun (i : ℕ) => start_time + 3600 * (i : ℤ))
  else []

/-- Model of split_call_by_hour (data_transformation.py lines 5-27): for
each consecutive pair of date_range ticks, clip the call to that interval
and emit a contribution when the clipped length is strictly positive.  The
emitted time_bucket is start_in_this_hour, i.e. max(start_time, tick). -/
def split_call_by_hour (start_time end_time : ℤ) (time_zone : String) :
    List Contribution :=
  let time_range := date_range start_time end_time
  (List.range (time_range.length - 1)).filterMap (fun i =>
    let start_interval := time_range.getD i 0
    let end_interval := time_range.getD (i + 1) 0
    let start_in_this_hour := max start_time start_interval
    let end_in_this_hour := min end_time end_interval
    let minutes_in_this_hour : ℚ :=
      ((end_in_this_hour - start_in_this_hour : ℤ) : ℚ) / 60
    if minutes_in_this_hour > 0 then
      some { time_bucket := start_in_this_hour,
             minutes := minutes_in_this_hour,
             time_zone := time_zone }
    else none)

/-- Model of the pandas Series.dt.dayofweek accessor on a timestamp:
Monday = 0 .. Sunday = 6.  Epoch day 0 (1970-01-01) was a Thursday. -/
def dayofweek (t : ℤ) : ℤ :=
  (t.fdiv 86400 + 3) % 7

/-- Model of the pandas Series.dt.hour accessor on a timestamp. -/
def hour_of_day (t : ℤ) : ℤ :=
  t.fdiv 3600 % 24

/-- Model of the Weekday column computed on lines 50-51 of
data_transformation.py for both time-zone views:
(dayofweek + 1) % 7, so Sunday = 0 .. Saturday = 6. -/
def weekday (t : ℤ) : ℤ :=
  (dayofweek t + 1) % 7

/-- One row of the input DataFrame df_combined, with the four timestamp
columns read by transform_for_time_heatmap (lines 40 and 43). -/
structure CallRecord where
  Start_Datetime_SG : ℤ
  End_Datetime_SG : ℤ
  Start_Datetime_NZ : ℤ
  End_Datetime_NZ : ℤ
deriving DecidableEq

/-- The sg_minutes list built by the loop on lines 38-43: the
concatenation, in row order, of the splitter output on the SG view. -/
def sg_contributions (df_combined : List CallRecord) : List Contribution :=
  df_combined.flatMap (fun row =>
    split_call_by_hour row.Start_Datetime_SG row.End_Datetime_SG "SG")

/-- The nz_minutes list built by the loop on lines 38-43: the
concatenation, in row order, of the splitter output on the NZ view. -/
def nz_contributions (df_combined : List CallRecord) : List Contribution :=
  df_combined.flatMap (fun row =>
    split_call_by_hour row.Start_Datetime_NZ row.End_Datetime_NZ "NZ")

/-- Whether a contribution belongs to the groupby group keyed by
(Weekday = d, Hour = h) (lines 50-58). -/
def matches_cell (d h : ℤ) (c : Contribution) : Bool :=
  weekday c.time_bucket == d && hour_of_day c.time_bucket == h

/-- The value the left-merge on lines 86-98 deposits in a cell: the
groupby sum of minutes when the (Weekday, Hour) group exists, and NaN
(modelled as none) when the left join finds no matching group. -/
def cell_sum (contribs : List Contribution) (d h : ℤ) : Option ℚ :=
  if contribs.filter (matches_cell d h) = [] then none
  else some (((contribs.filter (matches_cell d h)).map
    Contribution.minutes).sum)

/-- Model of itertools.product(days_of_week, hours_of_day) on line 74:
the 168 pairs (0,0), (0,1), ..., (6,23) in that order. -/
def week_combinations : List (ℤ × ℤ) :=
  (List.range 7).flatMap (fun (d : ℕ) =>
    (List.range 24).map (fun (h : ℕ) => ((d : ℤ), (h : ℤ))))

/-- One row of the merged table returned on line 102, after the two
Weekday key columns have been dropped. -/
structure GridRow where
  Day_of_Week : ℤ
  Hour : ℤ
  minutes_SG : Option ℚ
  minutes_NZ : Option ℚ
deriving DecidableEq

/-- Model of transform_for_time_heatmap (data_transformation.py lines
31-102).  When either per-view contribution list is empty the function is
modelled as none: pd.DataFrame([]) on line 46-47 is a DataFrame with no
columns at all, so the column access sg_minutes_df[time_bucket] (line
50-51) raises KeyError and no table is returned.  Otherwise the result is
the 168-row product grid, each cell left-joined against the groupby sums
of the matching contributions. -/
def transform_for_time_heatmap (df_combined : List CallRecord) :
    Option (List GridRow) :=
  if sg_contributions df_combined = [] ∨ nz_contributions df_combined = []
  then none
  else some (week_combinations.map (fun p =>
    { Day_of_Week := p.1, Hour := p.2,
      minutes_SG := cell_sum (sg_contributions df_combined) p.1 p.2,
      minutes_NZ := cell_sum (nz_contributions df_combined) p.1 p.2 }))

/-- Helper: a filterMap whose body always returns some is a map. -/
theorem filterMap_eq_map_of_forall {α β : Type} (l : List α)
    (f : α → Option β) (g : α → β) (h : ∀ a ∈ l, f a = some (g a)) :
    l.filterMap f = l.map g := by
  induction l with
  | nil => rfl
  | cons x xs ih =>
    rw [List.filterMap_cons, h x (List.mem_cons_self x xs), List.map_cons,
      ih (fun a ha => h a (List.mem_cons_of_mem x ha))]

/-- Helper: indexing a mapped range with a default. -/
theorem getD_range_map (f : ℕ → ℤ) (n i : ℕ) (hi : i < n) :
    ((List.range n).map f).getD i 0 = f i := by
  simp [List.getD_eq_getElem?_getD, List.getElem?_map, List.getElem?_range hi]

/-- Closed form of the splitter on a non-degenerate input: with
k = (end - start) / 3600 rounded down, it returns exactly k contributions,
each of exactly 60 minutes, at buckets start + 3600 * i for i = 0 .. k-1.
The trailing partial hour of the call (its duration modulo one hour) is
never emitted, and every bucket inherits the sub-hour offset of
start_time. -/
theorem split_call_by_hour_eq (s e : ℤ) (tz : String) (h : s ≤ e) :
    split_call_by_hour s e tz =
      (List.range ((e - s).toNat / 3600)).map
        (fun (i : ℕ) =>
          { time_bucket := s + 3600 * (i : ℤ), minutes := 60,
            time_zone := tz }) := by
  unfold split_call_by_hour date_range
  rw [if_pos h]
  simp only [List.length_map, List.length_range, Nat.add_sub_cancel]
  apply filterMap_eq_map_of_forall
  intro i hi
  rw [List.mem_range] at hi
  have h1 : ((List.range ((e - s).toNat / 3600 + 1)).map
      (fun (i : ℕ) => s + 3600 * (i : ℤ))).getD i 0 = s + 3600 * (i : ℤ) :=
    getD_range_map _ _ _ (by omega)
  have h2 : ((List.range ((e - s).toNat / 3600 + 1)).map
      (fun (i : ℕ) => s + 3600 * (i : ℤ))).getD (i + 1) 0
      = s + 3600 * ((i : ℤ) + 1) := by
    rw [getD_range_map _ _ _ (by omega)]; push_cast; ring
  simp only [h1, h2]
  have hmax : max s (s + 3600 * (i : ℤ)) = s + 3600 * (i : ℤ) := by
    apply max_eq_right; omega
  have hle : s + 3600 * ((i : ℤ) + 1) ≤ e := by
    have hk : ((e - s).toNat : ℤ) = e - s := Int.toNat_of_nonneg (by omega)
    have hdiv : (e - s).toNat / 3600 * 3600 ≤ (e - s).toNat :=
      Nat.div_mul_le_self _ _
    have hmul : (i + 1) * 3600 ≤ (e - s).toNat / 3600 * 3600 :=
      Nat.mul_le_mul_right _ (by omega)
    omega
  have hmin : min e (s + 3600 * ((i : ℤ) + 1)) = s + 3600 * ((i : ℤ) + 1) :=
    min_eq_right hle
  simp only [hmax, hmin]
  have hsub : ((s + 3600 * ((i : ℤ) + 1) - (s + 3600 * (i : ℤ)) : ℤ) : ℚ)
      / 60 = 60 := by push_cast; ring_nf
  rw [hsub, if_pos (by norm_num : (60 : ℚ) > 0)]

/-- Helper: a degenerate or reversed interval yields no contributions:
for end = start the date_range index is the singleton [start] and the loop
body never runs; for end < start the index is empty and range(len - 1) is
empty as well. -/
theorem split_call_by_hour_empty_of_le (s e : ℤ) (tz : String) (h : e ≤ s) :
    split_call_by_hour s e tz = [] := by
  rcases eq_or_lt_of_le h with heq | hlt
  · rw [split_call_by_hour_eq s e tz (le_of_eq heq.symm)]
    have hz : (e - s).toNat / 3600 = 0 := by
      have hzero : e - s = 0 := by omega
      simp [hzero]
    rw [hz]
    rfl
  · unfold split_call_by_hour date_range
    rw [if_neg (not_le.mpr hlt)]
    rfl

/-- Helper: cell_sum only depends on the multiset of contributions. -/
theorem cell_sum_perm (l l' : List Contribution) (p : l.Perm l')
    (d h : ℤ) : cell_sum l d h = cell_sum l' d h := by
  have pf : (l.filter (matches_cell d h)).Perm
      (l'.filter (matches_cell d h)) := p.filter _
  have hiff : (l.filter (matches_cell d h) = []) ↔
      (l'.filter (matches_cell d h) = []) := by
    rw [← List.length_eq_zero, ← List.length_eq_zero, pf.length_eq]
  unfold cell_sum
  by_cases hx : l.filter (matches_cell d h) = []
  · rw [if_pos hx, if_pos (hiff.mp hx)]
  · rw [if_neg hx, if_neg (fun hy => hx (hiff.mpr hy)),
      (pf.map Contribution.minutes).sum_eq]

/-- Helper: the Bool group predicate unfolded to a proposition. -/
theorem matches_cell_iff (d h : ℤ) (c : Contribution) :
    matches_cell d h c = true ↔
      (weekday c.time_bucket = d ∧ hour_of_day c.time_bucket = h) := by
  simp [matches_cell]

/-- Helper: a cell is NaN (none) exactly when no contribution falls in
it. -/
theorem cell_sum_eq_none_iff (l : List Contribution) (d h : ℤ) :
    cell_sum l d h = none ↔
      ∀ c ∈ l, ¬(weekday c.time_bucket = d ∧ hour_of_day c.time_bucket = h)
    := by
  unfold cell_sum
  by_cases hx : l.filter (matches_cell d h) = []
  · rw [if_pos hx]
    constructor
    · intro _ c hc hcell
      exact (List.filter_eq_nil_iff.mp hx c hc)
        ((matches_cell_iff d h c).mpr hcell)
    · intro _; rfl
  · rw [if_neg hx]
    constructor
    · intro hcontra
      exact absurd hcontra (by simp)
    · intro hall
      exact absurd (List.filter_eq_nil_iff.mpr (fun c hc hmc =>
        hall c hc ((matches_cell_iff d h c).mp hmc))) hx

/-- Claim C1.  The spec demands minute conservation; the code loses every
trailing partial hour.  For the call 10:30:00 to 12:15:00 of the epoch day
(start 37800 s, end 44100 s, duration 105 minutes), the splitter emits a
single 60-minute contribution, so the emitted total is 60, which misses
the claimed total 105 by far more than the 1e-6 tolerance. -/
theorem c1_minute_sum_lost_at_1030_1215 :
    ((split_call_by_hour 37800 44100 "SG").map Contribution.minutes).sum
      = 60 ∧
    ((44100 - 37800 : ℤ) : ℚ) / 60 = 105 ∧
    (105 : ℚ) - 60 > 1 / 1000000 := by
  have hsplit : split_call_by_hour 37800 44100 "SG" =
      [{ time_bucket := 37800, minutes := 60, time_zone := "SG" }] := by
    rw [split_call_by_hour_eq 37800 44100 "SG" (by norm_num)]
    decide
  refine ⟨?_, by norm_num, by norm_num⟩
  rw [hsplit]
  norm_num

/-- Claim C2.  The call from 10:30 to 12:15 does not produce the three
hour-aligned contributions 30 @ 10:00, 60 @ 11:00 and 15 @ 12:00 claimed
by the spec: date_range anchors its ticks at the start instant, so the
code emits exactly one contribution of 60 minutes at the non-aligned
bucket 10:30 (37800 s) and drops the remaining 45 minutes. -/
theorem c2_cross_hour_split_single_chunk :
    split_call_by_hour 37800 44100 "SG" =
      [{ time_bucket := 37800, minutes := 60, time_zone := "SG" }] := by
  rw [split_call_by_hour_eq 37800 44100 "SG" (by norm_num)]
  decide

/-- Claim C3.  The aggregator applied to an empty collection of call
records does not return a grid at all: both per-view contribution lists
are empty, pd.DataFrame([]) has no columns, and the access to the
time_bucket column raises KeyError, modelled here as none. -/
theorem c3_transform_empty_input_errors :
    transform_for_time_heatmap [] = none := by
  have hsg : sg_contributions [] = [] := rfl
  unfold transform_for_time_heatmap
  rw [if_pos (Or.inl hsg)]

/-- Claim C4.  Bucket alignment fails: for a call from 09:20:00 to
10:50:00 (start 33600 s) the single emitted contribution sits at bucket
33600 s, which is 1200 s past the enclosing hour boundary 09:00:00, so
its minute offset is 20, not 0. -/
theorem c4_bucket_not_hour_aligned :
    split_call_by_hour 33600 39000 "SG" =
      [{ time_bucket := 33600, minutes := 60, time_zone := "SG" }] ∧
    (33600 : ℤ) % 3600 = 1200 := by
  constructor
  · rw [split_call_by_hour_eq 33600 39000 "SG" (by norm_num)]
    decide
  · decide

/-- Claim C5, counterexample.  The claim quantifies over every input set,
but a set consisting of one 30-minute call (00:10:00 to 00:40:00 in both
views) makes both contribution lists empty, so the aggregator raises
(none) instead of returning a 168-row table. -/
theorem c5_counterexample_short_call_no_grid :
    transform_for_time_heatmap
      [{ Start_Datetime_SG := 600, End_Datetime_SG := 2400,
         Start_Datetime_NZ := 600, End_Datetime_NZ := 2400 }] = none := by
  have hsg : sg_contributions
      [{ Start_Datetime_SG := 600, End_Datetime_SG := 2400,
         Start_Datetime_NZ := 600, End_Datetime_NZ := 2400 }] = [] := by
    show split_call_by_hour 600 2400 "SG" ++ [] = []
    rw [split_call_by_hour_eq 600 2400 "SG" (by norm_num)]
    decide
  unfold transform_for_time_heatmap
  rw [if_pos (Or.inl hsg)]

/-- Claim C5, amended.  Whenever the aggregator does return a table (both
per-view contribution lists non-empty), that table has exactly 168 rows,
keyed in order by the full cartesian product of weekdays 0-6 and hours
0-23, and a cell holds the no-data marker none exactly when no
contribution of the corresponding view falls in it; none is distinct from
an observed zero-minute total some 0. -/
theorem c5_grid_shape_of_returned (df : List CallRecord)
    (g : List GridRow) (h : transform_for_time_heatmap df = some g) :
    g.length = 168 ∧
    g.map (fun r => (r.Day_of_Week, r.Hour)) = week_combinations ∧
    (∀ r ∈ g,
      (r.minutes_SG = none ↔ ∀ c ∈ sg_contributions df,
        ¬(weekday c.time_bucket = r.Day_of_Week ∧
          hour_of_day c.time_bucket = r.Hour)) ∧
      (r.minutes_NZ = none ↔ ∀ c ∈ nz_contributions df,
        ¬(weekday c.time_bucket = r.Day_of_Week ∧
          hour_of_day c.time_bucket = r.Hour))) ∧
    (none : Option ℚ) ≠ some 0 := by
  unfold transform_for_time_heatmap at h
  by_cases hc : sg_contributions df = [] ∨ nz_contributions df = []
  · rw [if_pos hc] at h
    exact absurd h (by simp)
  · rw [if_neg hc] at h
    have hg := Option.some.inj h
    subst hg
    refine ⟨?_, ?_, ?_, by simp⟩
    · rw [List.length_map]
      rfl
    · rw [List.map_map]
      exact List.map_id _
    · intro r hr
      rw [List.mem_map] at hr
      obtain ⟨p, _, rfl⟩ := hr
      exact ⟨cell_sum_eq_none_iff _ _ _, cell_sum_eq_none_iff _ _ _⟩

/-- A one-record input whose calls last a whole hour in both views, so
the aggregator returns a table. -/
def sample_df : List CallRecord :=
  [{ Start_Datetime_SG := 0, End_Datetime_SG := 3600,
     Start_Datetime_NZ := 14400, End_Datetime_NZ := 18000 }]

/-- The table the aggregator returns on sample_df. -/
def sample_grid : List GridRow :=
  week_combinations.map (fun p =>
    { Day_of_Week := p.1, Hour := p.2,
      minutes_SG := cell_sum (sg_contributions sample_df) p.1 p.2,
      minutes_NZ := cell_sum (nz_contributions sample_df) p.1 p.2 })

/-- Witness for claim C5: the grid-shape theorem applied to the concrete
input sample_df. -/
theorem c5_grid_shape_witness : sample_grid.length = 168 :=
  (c5_grid_shape_of_returned sample_df sample_grid (by
    have hsg : sg_contributions sample_df ≠ [] := by
      show split_call_by_hour 0 3600 "SG" ++ [] ≠ []
      rw [split_call_by_hour_eq 0 3600 "SG" (by norm_num)]
      decide
    have hnz : nz_contributions sample_df ≠ [] := by
      show split_call_by_hour 14400 18000 "NZ" ++ [] ≠ []
      rw [split_call_by_hour_eq 14400 18000 "NZ" (by norm_num)]
      decide
    unfold transform_for_time_heatmap
    rw [if_neg (by tauto)]
    rfl)).1

/-- Claim C6.  A call strictly inside one wall-clock hour is dropped
entirely: the 30-minute call from 10:15:00 to 10:45:00 (36900 s to
38700 s) yields no contribution at all, because date_range produces a
single tick and the loop body never runs.  The particular boundary
example of the claim does hold: 10:00:00 to 11:00:00 yields exactly one
60-minute contribution at bucket 10:00 and nothing at 11:00. -/
theorem c6_within_hour_call_dropped :
    split_call_by_hour 36900 38700 "SG" = [] ∧
    split_call_by_hour 36000 39600 "SG" =
      [{ time_bucket := 36000, minutes := 60, time_zone := "SG" }] := by
  constructor
  · rw [split_call_by_hour_eq 36900 38700 "SG" (by norm_num)]
    decide
  · rw [split_call_by_hour_eq 36000 39600 "SG" (by norm_num)]
    decide

/-- Claim C7.  The Weekday column assigned on lines 50-51 (the same
formula for both time-zone views) maps a bucket falling on a calendar
Sunday (pandas dayofweek 6) to 0 and a calendar Saturday (pandas
dayofweek 5) to 6. -/
theorem c7_weekday_convention (t : ℤ) :
    (dayofweek t = 6 → weekday t = 0) ∧
    (dayofweek t = 5 → weekday t = 6) := by
  constructor <;> (intro h; unfold weekday; rw [h]; decide)

/-- Witness for claim C7: 1970-01-04 (timestamp 259200 s) was a Sunday
and 1970-01-03 (timestamp 172800 s) a Saturday. -/
theorem c7_weekday_convention_witness :
    (dayofweek 259200 = 6 ∧ weekday 259200 = 0) ∧
    (dayofweek 172800 = 5 ∧ weekday 172800 = 6) :=
  ⟨⟨by decide, (c7_weekday_convention 259200).1 (by decide)⟩,
   ⟨by decide, (c7_weekday_convention 172800).2 (by decide)⟩⟩

/-- Claim C8.  For end_instant ≤ start_instant the splitter silently
returns the empty list: no validation is performed and no exception can
arise, since the function is a total fold over the (empty or singleton)
tick index. -/
theorem c8_invalid_interval_silent_empty (s e : ℤ) (tz : String)
    (h : e ≤ s) : split_call_by_hour s e tz = [] :=
  split_call_by_hour_empty_of_le s e tz h

/-- Witness for claim C8: a degenerate call and a reversed call. -/
theorem c8_invalid_interval_witness :
    split_call_by_hour 1000 1000 "SG" = [] ∧
    split_call_by_hour 2000 1000 "NZ" = [] :=
  ⟨c8_invalid_interval_silent_empty 1000 1000 "SG" (by norm_num),
   c8_invalid_interval_silent_empty 2000 1000 "NZ" (by norm_num)⟩

/-- Claim C9.  The aggregator is invariant under permutation of the input
records: the contribution lists are permuted accordingly, each cell sum
is a sum over a filtered sublist (associative and commutative), the
error condition depends only on emptiness, and the 168 row keys are an
explicitly enumerated product, so the output table is identical. -/
theorem c9_transform_perm_invariant (df df' : List CallRecord)
    (h : df.Perm df') :
    transform_for_time_heatmap df = transform_for_time_heatmap df' := by
  have psg : (sg_contributions df).Perm (sg_contributions df') :=
    h.flatMap_right _
  have pnz : (nz_contributions df).Perm (nz_contributions df') :=
    h.flatMap_right _
  have hsgiff : (sg_contributions df = []) ↔ (sg_contributions df' = [])
    := by rw [← List.length_eq_zero, ← List.length_eq_zero, psg.length_eq]
  have hnziff : (nz_contributions df = []) ↔ (nz_contributions df' = [])
    := by rw [← List.length_eq_zero, ← List.length_eq_zero, pnz.length_eq]
  unfold transform_for_time_heatmap
  by_cases hc : sg_contributions df = [] ∨ nz_contributions df = []
  · have hc' : sg_contributions df' = [] ∨ nz_contributions df' = [] :=
      hc.imp hsgiff.mp hnziff.mp
    rw [if_pos hc, if_pos hc']
  · have hc' : ¬(sg_contributions df' = [] ∨ nz_contributions df' = []) :=
      fun hy => hc (hy.imp hsgiff.mpr hnziff.mpr)
    rw [if_neg hc, if_neg hc']
    congr 1
    apply List.map_congr_left
    intro p _
    rw [cell_sum_perm _ _ psg, cell_sum_perm _ _ pnz]

/-- A second sample record, used to exhibit a non-trivial permutation. -/
def sample_call_b : CallRecord :=
  { Start_Datetime_SG := 7200, End_Datetime_SG := 13500,
    Start_Datetime_NZ := 21600, End_Datetime_NZ := 27900 }

/-- A third sample record, used to exhibit a non-trivial permutation. -/
def sample_call_c : CallRecord :=
  { Start_Datetime_SG := 90000, End_Datetime_SG := 97200,
    Start_Datetime_NZ := 104400, End_Datetime_NZ := 111600 }

/-- Witness for claim C9: swapping two concrete records leaves the
aggregator output unchanged. -/
theorem c9_transform_perm_witness :
    transform_for_time_heatmap [sample_call_b, sample_call_c] =
      transform_for_time_heatmap [sample_call_c, sample_call_b] :=
  c9_transform_perm_invariant [sample_call_b, sample_call_c]
    [sample_call_c, sample_call_b]
    (List.Perm.swap sample_call_c sample_call_b [])

/-- Claim C10.  Every emitted contribution carries strictly positive
minutes, at most 60 minutes (the code in fact always emits exactly 60),
and the time_zone argument unchanged. -/
theorem c10_contribution_bounds (s e : ℤ) (tz : String)
    (c : Contribution) (hc : c ∈ split_call_by_hour s e tz) :
    0 < c.minutes ∧ c.minutes ≤ 60 ∧ c.time_zone = tz := by
  by_cases hse : s ≤ e
  · rw [split_call_by_hour_eq s e tz hse] at hc
    rw [List.mem_map] at hc
    obtain ⟨i, _, rfl⟩ := hc
    exact ⟨by norm_num, by norm_num, rfl⟩
  · rw [split_call_by_hour_empty_of_le s e tz (by omega)] at hc
    exact absurd hc (by simp)

/-- A concrete contribution emitted for the call from 00:00 to 02:00. -/
def sample_contribution : Contribution :=
  { time_bucket := 0, minutes := 60, time_zone := "SG" }

/-- Witness for claim C10: the bounds theorem applied to a concrete
member of a concrete splitter output. -/
theorem c10_contribution_bounds_witness :
    sample_contribution ∈ split_call_by_hour 0 7200 "SG" ∧
    0 < sample_contribution.minutes ∧
    sample_contribution.minutes ≤ 60 ∧
    sample_contribution.time_zone = "SG" :=
  have hsplit : split_call_by_hour 0 7200 "SG" =
      [sample_contribution,
       { time_bucket := 3600, minutes := 60, time_zone := "SG" }] := by
    rw [split_call_by_hour_eq 0 7200 "SG" (by norm_num)]
    decide
  have hm : sample_contribution ∈ split_call_by_hour 0 7200 "SG" := by
    rw [hsplit]
    exact List.mem_cons_self _ _
  ⟨hm, c10_contribution_bounds 0 7200 "SG" sample_contribution hm⟩
